import Mathlib

/-
Verification development for the fp-openapi-rust-gen code generator.

The definitions below are a shallow embedding of the generator's core
(src/types.rs, src/models.rs, src/routes.rs): the OpenAPI document model
(a simplification-free rendering of the okapi/schemars data the code
inspects), the type mapper, the reference resolver, and the two
synthesizers.  File writers are modelled as accumulated output strings,
`eprintln!`/`println!` diagnostics as an accumulated warning list, and
`anyhow` errors as `Except GenError` with one error constructor per
failure site and a `renderError` function for the displayed messages.
The unbounded Rust recursion in `resolve_reference` is modelled with an
explicit fuel parameter whose exhaustion is the distinguished error
`outOfFuel`.
-/

set_option maxRecDepth 16384
set_option maxHeartbeats 1000000

namespace FpGen

/-- The seven JSON-schema instance types (schemars `InstanceType`). -/
inductive InstanceType where
  | null
  | boolean
  | object
  | array
  | number
  | string
  | integer
deriving DecidableEq, Repr

/-- schemars `SingleOrVec`: either a single value or a list of values. -/
inductive SingleOrVec (α : Type) where
  | single (x : α)
  | vec (xs : List α)
deriving DecidableEq, Repr

mutual

/-- schemars `Schema`: either a plain boolean schema or a schema object. -/
inductive Schema where
  | bool (b : Bool)
  | object (obj : SchemaObject)

/-- The parts of a schemars/okapi `SchemaObject` the generator inspects:
`format`, `instance_type`, `reference` (the `$ref` field), `array`
validation and `object` validation. -/
inductive SchemaObject where
  | mk (format : Option String)
       (instance_type : Option (SingleOrVec InstanceType))
       (reference : Option String)
       (array : Option ArrayValidation)
       (object : Option ObjectValidation)

/-- schemars `ArrayValidation`, of which the generator reads `items`. -/
inductive ArrayValidation where
  | mk (items : Option (SingleOrVec Schema))

/-- schemars `ObjectValidation`: ordered property map plus required set. -/
inductive ObjectValidation where
  | mk (properties : List (String × Schema)) (required : List String)

end

def SchemaObject.format : SchemaObject → Option String
  | .mk f _ _ _ _ => f

def SchemaObject.instance_type : SchemaObject → Option (SingleOrVec InstanceType)
  | .mk _ i _ _ _ => i

def SchemaObject.reference : SchemaObject → Option String
  | .mk _ _ r _ _ => r

def SchemaObject.array : SchemaObject → Option ArrayValidation
  | .mk _ _ _ a _ => a

def SchemaObject.object : SchemaObject → Option ObjectValidation
  | .mk _ _ _ _ o => o

def ArrayValidation.items : ArrayValidation → Option (SingleOrVec Schema)
  | .mk i => i

def ObjectValidation.properties : ObjectValidation → List (String × Schema)
  | .mk p _ => p

def ObjectValidation.required : ObjectValidation → List String
  | .mk _ r => r

/-- okapi `Reference`: a `$ref` pointer string. -/
structure Reference where
  reference : String
deriving DecidableEq, Repr

/-- okapi `RefOr`: an inline object or a pointer. -/
inductive RefOr (α : Type) where
  | ref (r : Reference)
  | object (o : α)
deriving DecidableEq, Repr

/-- okapi `MediaType`, of which the generator reads `schema`. -/
structure MediaType where
  schema : Option SchemaObject

/-- okapi `ParameterValue`: an inline schema or a content map. -/
inductive ParameterValue where
  | schema (schema : SchemaObject)
  | content (content : List (String × MediaType))

/-- okapi `Parameter`: name, location (the `in` field), required flag and
value description. -/
structure Parameter where
  name : String
  location : String
  required : Bool
  value : ParameterValue

/-- okapi `RequestBody`: MIME type → media descriptor map. -/
structure RequestBody where
  content : List (String × MediaType)

/-- okapi `Response`: MIME type → media descriptor map. -/
structure Response where
  content : List (String × MediaType)

/-- okapi `Responses`: status code → response handle map. -/
structure Responses where
  responses : List (String × RefOr Response)

/-- okapi `Operation`: the fields the route synthesizer reads. -/
structure Operation where
  operation_id : Option String
  description : Option String
  parameters : List (RefOr Parameter)
  request_body : Option (RefOr RequestBody)
  responses : Responses

/-- okapi `Components`: the four registry categories.  In okapi the
`schemas` category maps names directly to `SchemaObject`s (a pointer
entry is a schema object whose `reference` field is set), while the
other three categories map names to `RefOr` handles. -/
structure Components where
  schemas : List (String × SchemaObject)
  parameters : List (String × RefOr Parameter)
  responses : List (String × RefOr Response)
  request_bodies : List (String × RefOr RequestBody)

/-- Splitter used to model Rust `str::split` / the word splitting of the
naming collaborator: cut a character list at every separator char. -/
def splitCharsOn (p : Char → Bool) : List Char → List Char → List (List Char)
  | [], acc => [acc.reverse]
  | c :: cs, acc =>
      if p c then acc.reverse :: splitCharsOn p cs []
      else splitCharsOn p cs (c :: acc)

/-- Rust `reference.split("/")` as used by `resolve_reference`. -/
def splitSlash (s : String) : List String :=
  (splitCharsOn (fun c => c == '/') s.data []).map String.mk

/-- Rust `str::rsplit_once('/')`: split at the last slash. -/
def rsplitOnce (s : String) : Option (String × String) :=
  match s.data.reverse.span (fun c => c != '/') with
  | (_, []) => none
  | (suf, _ :: preRev) => some (String.mk preRev.reverse, String.mk suf.reverse)

/-- Modelled from the spec: the naming-convention collaborator (the
`convert_case` crate, external to this repository, §6): capitalize the
first letter of a word. -/
def capitalizeWord (w : String) : String :=
  match w.data with
  | [] => ""
  | c :: cs => String.mk (c.toUpper :: cs)

/-- Modelled from the spec: `to_case(Case::Pascal)` of the external
naming-convention collaborator — capitalized-word style: split into
words and capitalize each. -/
def toPascal (s : String) : String :=
  String.join
    (((splitCharsOn (fun c => c == '_' || c == '-' || c == ' ') s.data []).map
      String.mk).map capitalizeWord)

def toSnakeAux : List Char → List Char
  | [] => []
  | c :: cs =>
      if c.isUpper then '_' :: c.toLower :: toSnakeAux cs
      else if c == '-' || c == ' ' then '_' :: toSnakeAux cs
      else c :: toSnakeAux cs

/-- Modelled from the spec: `to_case(Case::Snake)` of the external
naming-convention collaborator — lower-case words joined by
underscores. -/
def toSnake (s : String) : String :=
  match toSnakeAux s.data with
  | '_' :: rest => String.mk rest
  | l => String.mk l

/-- Modelled from the spec: the reserved-word detection collaborator
(the `check_keyword` crate, external to this repository, §6). -/
def rustKeywords : List String :=
  ["as", "break", "const", "continue", "crate", "dyn", "else", "enum",
   "extern", "false", "fn", "for", "if", "impl", "in", "let", "loop",
   "match", "mod", "move", "mut", "pub", "ref", "return", "self", "Self",
   "static", "struct", "super", "trait", "true", "type", "unsafe", "use",
   "where", "while", "async", "await", "abstract", "become", "box", "do",
   "final", "macro", "override", "priv", "typeof", "unsized", "virtual",
   "yield", "try", "union"]

def isKeyword (s : String) : Bool :=
  rustKeywords.contains s

/-- The distinct `anyhow` error values the generator can produce, one
constructor per `bail!`/`anyhow!`/`unimplemented!` site, carrying the
formatted-in data; `renderError` gives each one's displayed message.
`outOfFuel` is the modelling artifact for exhausting the fuel that
stands in for the unbounded Rust recursion of `resolve_reference`;
`context` models `anyhow::Context::with_context`, which wraps a cause
and displays the context message. -/
inductive GenError where
  | outOfFuel
  | noComponentName (reference : String)
  | noModelName (reference : String)
  | mapTypeNoRule
  | fieldWriteFailed (name : String)
  | boolSchemaUnimplemented
  | missingOperationId (method : String) (endpoint : String)
  | unexpectedResolvedType (debug : String) (expected : String)
  | unknownMediaType
  | needSchema
  | arrayNoItems
  | boolVecUnsupported
  | vecItemsUnsupported
  | context (msg : String) (cause : GenError)
deriving DecidableEq, Repr

/-- The displayed message of each error value (Rust `{:?}` payload dumps
are abbreviated as `<omitted>`). -/
def renderError : GenError → String
  | .outOfFuel => "out of fuel"
  | .noComponentName reference => "no component name found in \"" ++ reference ++ "\""
  | .noModelName reference => "no model name found in \"" ++ reference ++ "\""
  | .mapTypeNoRule => "Failed to write field. Unsupported instance_type and reference is None"
  | .fieldWriteFailed name => "Failed to write field " ++ name ++ ". Schema: <omitted>"
  | .boolSchemaUnimplemented => "bool is not implemented for schema"
  | .missingOperationId method endpoint =>
      "\"" ++ method ++ " " ++ endpoint ++ "\" does not have operation_id"
  | .unexpectedResolvedType debug expected =>
      "resolved to unexpected type " ++ debug ++ ", expected `" ++ expected ++ "`"
  | .unknownMediaType => "unknown media type"
  | .needSchema => "need a schema"
  | .arrayNoItems => "array but no items?"
  | .boolVecUnsupported => "simple boolean Vec is unsupported"
  | .vecItemsUnsupported => "Vec with Array as items is not supported"
  | .context msg _ => msg

/-- src/types.rs `map_type`: format-keyed primitives first, then single
instance-type primitives, then the reference rule, else an error. -/
def map_type (format : Option String)
    (instance_type : Option (SingleOrVec InstanceType))
    (reference : Option String) : Except GenError String :=
  match format with
  | some "base64uuid" => .ok "base64uuid::Base64Uuid"
  | some "int32" => .ok "i32"
  | some "int64" => .ok "i64"
  | some "float" => .ok "f32"
  | some "double" => .ok "f64"
  | some "byte" => .ok "Vec<u8>"
  | some "binary" => .ok "Vec<u8>"
  | some "date" | some "date-time" => .ok "time::OffsetDateTime"
  | some "password" => .ok "SecureString"
  | _ =>
      match instance_type with
      | some (.single it) =>
          match it with
          | .null => .ok "()"
          | .boolean => .ok "bool"
          | .object => .ok "std::collections::HashMap<String, String>"
          | .array => .ok "Vec<serde_json::Value>"
          | .number => .ok "i64"
          | .string => .ok "String"
          | .integer => .ok "i32"
      | _ =>
          match reference with
          | some reference =>
              match rsplitOnce reference with
              | some (_, reference_name) => .ok ("models::" ++ toPascal reference_name)
              | none => .ok ("models::" ++ toPascal reference)
          | none => .error .mapTypeNoRule

/-- Modelled from the spec: `reference_name_to_models_path` is imported
by src/routes.rs from the types module but its definition is not among
the provided sources; per §4.2 step 3 it splits the pointer on the last
separator, Pascal-cases the trailing segment and prefixes the models
namespace. -/
def reference_name_to_models_path (reference : String) : String :=
  match rsplitOnce reference with
  | some (_, name) => "models::" ++ toPascal name
  | none => "models::" ++ toPascal reference

/-- src/types.rs `ResolvedReference`: the tagged union of resolution
results. -/
inductive ResolvedReference where
  | schema (s : SchemaObject)
  | parameter (p : Parameter)
  | responses (r : Response)
  | requestBody (b : RequestBody)

/-- Stands in for the Rust `{:?}` rendering of a `ResolvedReference`
inside error messages. -/
def resolvedDebug : ResolvedReference → String
  | .schema _ => "Schema(..)"
  | .parameter _ => "Parameter(..)"
  | .responses _ => "Responses(..)"
  | .requestBody _ => "RequestBody(..)"

/-- src/types.rs `resolve_reference`: skip the first two slash-separated
segments, read a category token and a name token, look the name up in
the matching registry category; `RefOr::Ref` registry entries are
resolved recursively (fuel models the unbounded Rust recursion);
unrecognized categories log and return no match. -/
def resolve_reference (fuel : Nat) (reference : String) (components : Components) :
    Except GenError (Option ResolvedReference × List String) :=
  match fuel with
  | 0 => .error .outOfFuel
  | Nat.succ fuel =>
      match (splitSlash reference).drop 2 with
      | [] => .error (.noComponentName reference)
      | [_] => .error (.noModelName reference)
      | component :: name :: _ =>
          if component = "schemas" then
            .ok ((List.lookup name components.schemas).map (fun s => .schema s), [])
          else if component = "parameters" then
            match List.lookup name components.parameters with
            | none => .ok (none, [])
            | some (.ref r) => resolve_reference fuel r.reference components
            | some (.object p) => .ok (some (.parameter p), [])
          else if component = "responses" then
            match List.lookup name components.responses with
            | none => .ok (none, [])
            | some (.ref r) => resolve_reference fuel r.reference components
            | some (.object o) => .ok (some (.responses o), [])
          else if component = "requestBody" then
            match List.lookup name components.request_bodies with
            | none => .ok (none, [])
            | some (.ref r) => resolve_reference fuel r.reference components
            | some (.object o) => .ok (some (.requestBody o), [])
          else
            .ok (none, ["Unsupported component type " ++ component])

/-- src/types.rs `ResolveTarget`: the four typed resolution requests. -/
inductive ResolveTarget where
  | schema (o : Option (RefOr SchemaObject))
  | parameter (o : Option (RefOr Parameter))
  | response (o : Option (RefOr Response))
  | requestBody (o : Option (RefOr RequestBody))

/-- src/types.rs `resolve`: absent input yields no match, a pointer is
resolved through the registry, an inline object is returned tagged with
its own variant.  This collapses the source's `type_erase`/`unpack_*`
plumbing, which only works around Rust generics and has the same net
behavior. -/
def resolve (fuel : Nat) (input : ResolveTarget) (components : Components) :
    Except GenError (Option ResolvedReference × List String) :=
  match input with
  | .schema none => .ok (none, [])
  | .schema (some (.ref r)) => resolve_reference fuel r.reference components
  | .schema (some (.object o)) => .ok (some (.schema o), [])
  | .parameter none => .ok (none, [])
  | .parameter (some (.ref r)) => resolve_reference fuel r.reference components
  | .parameter (some (.object p)) => .ok (some (.parameter p), [])
  | .response none => .ok (none, [])
  | .response (some (.ref r)) => resolve_reference fuel r.reference components
  | .response (some (.object o)) => .ok (some (.responses o), [])
  | .requestBody none => .ok (none, [])
  | .requestBody (some (.ref r)) => resolve_reference fuel r.reference components
  | .requestBody (some (.object o)) => .ok (some (.requestBody o), [])

/-- The inline type table of src/models.rs `generate_normal_field`
(lines 95–128): textually the same table as `map_type` with a
field-specific error message (whose Rust `{:?}` schema dump is
abbreviated here). -/
def field_type (name : String) (schema : SchemaObject) : Except GenError String :=
  match schema.format with
  | some "base64uuid" => .ok "base64uuid::Base64Uuid"
  | some "int32" => .ok "i32"
  | some "int64" => .ok "i64"
  | some "float" => .ok "f32"
  | some "double" => .ok "f64"
  | some "byte" => .ok "Vec<u8>"
  | some "binary" => .ok "Vec<u8>"
  | some "date" | some "date-time" => .ok "time::OffsetDateTime"
  | some "password" => .ok "SecureString"
  | _ =>
      match schema.instance_type with
      | some (.single it) =>
          match it with
          | .null => .ok "()"
          | .boolean => .ok "bool"
          | .object => .ok "std::collections::HashMap<String, String>"
          | .array => .ok "Vec<serde_json::Value>"
          | .number => .ok "i64"
          | .string => .ok "String"
          | .integer => .ok "i32"
      | _ =>
          match schema.reference with
          | some reference =>
              match rsplitOnce reference with
              | some (_, reference_name) => .ok ("models::" ++ toPascal reference_name)
              | none => .ok ("models::" ++ toPascal reference)
          | none => .error (.fieldWriteFailed name)

/-- src/models.rs `generate_normal_field`: serde rename attribute,
keyword-escaped snake-case field name, optional-wrapping per membership
in the required set, field type per the inline table. -/
def generate_normal_field (name : String) (schema : SchemaObject)
    (required_list : List String) : Except GenError String :=
  let snake0 := toSnake name
  let snake_name := if isKeyword snake0 then snake0 ++ "_" else snake0
  let required := required_list.contains name
  match field_type name schema with
  | .error e => .error e
  | .ok t =>
      .ok ("    #[serde(rename = \"" ++ name ++ "\")]\n"
        ++ "    pub " ++ snake_name ++ ": "
        ++ (if required then t else "Option<" ++ t ++ ">")
        ++ ",\n")

/-- The property loop of src/models.rs `generate_model`: a `Schema::Bool`
property hits `unimplemented!` (modelled as an error), an object
property is emitted via `generate_normal_field`. -/
def generate_model_fields (required : List String) :
    List (String × Schema) → Except GenError String
  | [] => .ok ""
  | (_, .bool _) :: _ => .error .boolSchemaUnimplemented
  | (id, .object schema_object) :: rest =>
      match generate_normal_field id schema_object required with
      | .error e => .error e
      | .ok field =>
          match generate_model_fields required rest with
          | .error e => .error e
          | .ok tail => .ok (field ++ tail)

/-- src/models.rs `generate_model`: header and derives, then one field
per declared property; a schema with no object validation logs a
warning and produces an empty record. -/
def generate_model (name : String) (object : SchemaObject) :
    Except GenError (String × List String) :=
  let head := "use serde::\x7bDeserialize, Serialize\x7d;\nuse crate::models;\n\n"
    ++ "#[derive(Clone, Debug, Serialize, Deserialize)]\n"
    ++ "pub struct " ++ toPascal name ++ " \x7b\n"
  match object.object with
  | some object_validation =>
      match generate_model_fields object_validation.required object_validation.properties with
      | .error e => .error e
      | .ok fields => .ok (head ++ fields ++ "\x7d\n\n", [])
  | none => .ok (head ++ "\x7d\n\n", ["warn: " ++ name ++ " had no object. probably a enum?"])

/-- Models `anyhow::Context::with_context`: the attached context message
is what the surfaced error displays. -/
def withContext (ctx : String) : Except GenError α → Except GenError α
  | .error e => .error (.context ctx e)
  | .ok a => .ok a

/-- One iteration of the function-signature parameter loop of
src/routes.rs `generate_route` (lines 162–203): resolve the handle,
fatally reject non-Parameter resolutions, silently skip no-match,
emit `name: type` with optional-wrapping per the required flag
(a `Content`-valued parameter contributes no type text). -/
def param_sig_one (fuel : Nat) (raw_param : RefOr Parameter) (components : Components) :
    Except GenError (String × List String) :=
  match resolve fuel (.parameter (some raw_param)) components with
  | .error e => .error e
  | .ok (some (.parameter parameter), w) =>
      let lead := "    " ++ toSnake parameter.name ++ ": "
        ++ (if parameter.required then "" else "Option<")
      let close := (if parameter.required then "" else ">") ++ ",\n"
      match parameter.value with
      | .schema schema =>
          match withContext
              ("Failed to map type for parameter " ++ parameter.name ++ ". Schema: <omitted>")
              (map_type schema.format schema.instance_type schema.reference) with
          | .error e => .error e
          | .ok t => .ok (lead ++ t ++ close, w)
      | .content _ => .ok (lead ++ close, w)
  | .ok (some resolved, _) =>
      .error (.unexpectedResolvedType (resolvedDebug resolved) "Parameter")
  | .ok (none, w) => .ok ("", w)

/-- The whole signature parameter loop: shared parameters chained with
the operation's own. -/
def param_sig_section (fuel : Nat) (params : List (RefOr Parameter)) (components : Components) :
    Except GenError (String × List String) :=
  match params with
  | [] => .ok ("", [])
  | p :: rest =>
      match param_sig_one fuel p components with
      | .error e => .error e
      | .ok (s, w) =>
          match param_sig_section fuel rest components with
          | .error e => .error e
          | .ok (s2, w2) => .ok (s ++ s2, w ++ w2)

/-- The `filter_map` over the request body's content map (src/routes.rs
lines 210–227): keep json / form-data / octet-stream media, log every
other content type. -/
def filter_media : List (String × MediaType) → List MediaType × List String
  | [] => ([], [])
  | (content_type, media_type) :: rest =>
      let (ms, ws) := filter_media rest
      if content_type == "application/json" || content_type == "multipart/form-data"
          || content_type == "application/octet-stream" then
        (media_type :: ms, ws)
      else
        (ms, ("warn: found \"" ++ content_type
          ++ "\", expected json, form data or octet stream") :: ws)

/-- The request-body block of src/routes.rs `generate_route`
(lines 205–276): resolve the body handle, take the first supported
media type, then emit the payload parameter by the three-shape logic
(named reference / array of a single item / inline primitive). -/
def request_body_sig (fuel : Nat) (request_body : Option (RefOr RequestBody))
    (components : Components) : Except GenError (String × List String) :=
  match resolve fuel (.requestBody request_body) components with
  | .error e => .error e
  | .ok (some (.requestBody body), w) =>
      let (media_types, mwarns) := filter_media body.content
      match media_types.head? with
      | none => .error .unknownMediaType
      | some json_type =>
          match json_type.schema with
          | none => .error .needSchema
          | some schema =>
              match schema.reference with
              | some reference =>
                  .ok ("    payload: " ++ reference_name_to_models_path reference ++ "\n",
                    w ++ mwarns)
              | none =>
                  match schema.array with
                  | some array =>
                      match array.items with
                      | none => .error .arrayNoItems
                      | some (.single s) =>
                          match s with
                          | .object object =>
                              match map_type object.format object.instance_type object.reference with
                              | .error e => .error e
                              | .ok t => .ok ("    payload: Vec<" ++ t ++ ">\n", w ++ mwarns)
                          | .bool _ => .error .boolVecUnsupported
                      | some (.vec _) => .error .vecItemsUnsupported
                  | none =>
                      match map_type schema.format schema.instance_type schema.reference with
                      | .error e => .error e
                      | .ok t => .ok ("    payload: " ++ t ++ ",\n", w ++ mwarns)
  | .ok (some resolved, _) =>
      .error (.unexpectedResolvedType (resolvedDebug resolved) "RequestBody")
  | .ok (none, w) => .ok ("", w)

/-- Rust `{:?}` rendering of a list of map keys, used in the unknown
MIME type warning. -/
def listDebug (l : List String) : String :=
  "[" ++ String.intercalate ", " (l.map (fun s => "\"" ++ s ++ "\"")) ++ "]"

/-- The 200-response block of src/routes.rs `generate_route`
(lines 278–361): derives the written return type text and the
`is_json` / `is_none` / `is_text` state flags. -/
def response_section (fuel : Nat) (resp : Option (RefOr Response)) (components : Components) :
    Except GenError (String × List String × Bool × Bool × Bool) :=
  match resolve fuel (.response resp) components with
  | .error e => .error e
  | .ok (some (.responses response), w) =>
      if response.content.isEmpty then
        .ok ("()", w, false, true, false)
      else
        match List.lookup "application/json" response.content with
        | some json_media =>
            match json_media.schema with
            | none => .error .needSchema
            | some schema =>
                match schema.reference with
                | some reference =>
                    match rsplitOnce reference with
                    | some (_, reference_name) =>
                        .ok ("models::" ++ toPascal reference_name, w, true, false, false)
                    | none => .ok ("models::" ++ toPascal reference, w, true, false, false)
                | none =>
                    match schema.array with
                    | some array =>
                        match array.items with
                        | some (.single single) =>
                            match single with
                            | .bool _ =>
                                .ok ("", w ++ ["unsupported bool for array items"],
                                  true, false, false)
                            | .object object =>
                                match map_type object.format object.instance_type
                                    object.reference with
                                | .error e => .error e
                                | .ok t => .ok ("Vec<" ++ t ++ ">", w, true, false, false)
                        | some (.vec _) =>
                            .ok ("", w ++ ["unsupported multiple items vec <omitted>"],
                              true, false, false)
                        | none =>
                            .ok ("", w ++ ["type is array but has no items? <omitted>"],
                              true, false, false)
                    | none =>
                        match map_type schema.format schema.instance_type schema.reference with
                        | .error e => .error e
                        | .ok t => .ok (t, w, true, t == "()", false)
        | none =>
            if (List.lookup "text/plain" response.content).isSome then
              .ok ("String", w, false, false, true)
            else if (List.lookup "application/octet-stream" response.content).isSome then
              .ok ("bytes::Bytes", w, false, false, false)
            else
              .ok ("bytes::Bytes",
                w ++ ["warn: unknown response mime type(s), falling back to `bytes::Bytes`: "
                  ++ listDebug (response.content.map Prod.fst)],
                false, false, false)
  | .ok (some resolved, _) =>
      .error (.unexpectedResolvedType (resolvedDebug resolved) "Response")
  | .ok (none, w) => .ok ("()", w, false, true, false)

/-- State machine of the lazy regex capture loop for path placeholders:
outside a brace pair scan for an opening brace, inside one accumulate
until the first closing brace. -/
def placeholderScan : List Char → Option (List Char) → List String
  | [], _ => []
  | c :: rest, none =>
      if c == '{' then placeholderScan rest (some [])
      else placeholderScan rest none
  | c :: rest, some acc =>
      if c == '}' then String.mk acc.reverse :: placeholderScan rest none
      else placeholderScan rest (some (c :: acc))

/-- The placeholder names captured from the endpoint template via the
regex in src/routes.rs `generate_function_body`. -/
def placeholders (endpoint : String) : List String :=
  placeholderScan endpoint.data none

/-- One iteration of the query-string loop of src/routes.rs
`generate_function_body` (lines 416–471): path parameters are skipped,
query parameters are attached with a presence guard when optional and
type-specific stringification; other locations are logged; non-Parameter
resolutions are silently ignored here (no fatal error in this loop). -/
def query_param_one (fuel : Nat) (ref_or : RefOr Parameter) (components : Components) :
    Except GenError (String × List String) :=
  match resolve fuel (.parameter (some ref_or)) components with
  | .error e => .error e
  | .ok (none, w) => .ok ("", w)
  | .ok (some resolved, w) =>
      match resolved with
      | .parameter parameter =>
          if parameter.location = "path" then .ok ("", w)
          else if parameter.location = "query" then
            let parameter_name := toSnake parameter.name
            let opening :=
              if parameter.required then ""
              else "    if let Some(" ++ parameter_name ++ ") = " ++ parameter_name ++ " \x7b\n"
            let closing := if parameter.required then "" else "    \x7d\n"
            match parameter.value with
            | .schema schema =>
                match withContext
                    ("Failed to map type for parameter " ++ parameter.name
                      ++ ". Schema: <omitted>")
                    (map_type schema.format schema.instance_type schema.reference) with
                | .error e => .error e
                | .ok t =>
                    let parameter_name :=
                      if t == "time::OffsetDateTime" then
                        parameter_name ++ ".format(&Rfc3339)?"
                      else if t == "std::collections::HashMap<String, String>" then
                        "serde_json::to_string(&" ++ parameter_name ++ ")?"
                      else parameter_name
                    .ok (opening ++ "        builder = builder.query(&[(\""
                      ++ parameter.name ++ "\", " ++ parameter_name ++ ")]);\n"
                      ++ closing, w)
            | .content _ =>
                .ok (opening ++ "        builder = builder.query(&[(\""
                  ++ parameter.name ++ "\", " ++ parameter_name ++ ")]);\n"
                  ++ closing, w)
          else .ok ("", w ++ ["unknown `in`: " ++ parameter.location])
      | _ => .ok ("", w)

/-- The whole query-string loop: note it runs over the operation's own
parameters only (the caller passes `operation.parameters`). -/
def query_section (fuel : Nat) (params : List (RefOr Parameter)) (components : Components) :
    Except GenError (String × List String) :=
  match params with
  | [] => .ok ("", [])
  | p :: rest =>
      match query_param_one fuel p components with
      | .error e => .error e
      | .ok (s, w) =>
          match query_section fuel rest components with
          | .error e => .error e
          | .ok (s2, w2) => .ok (s ++ s2, w ++ w2)

/-- The request-body attachment block of src/routes.rs
`generate_function_body` (lines 473–493). -/
def body_attach (fuel : Nat) (request_body : Option (RefOr RequestBody))
    (components : Components) : Except GenError (String × List String) :=
  match request_body with
  | none => .ok ("", [])
  | some rb =>
      match resolve fuel (.requestBody (some rb)) components with
      | .error e => .error e
      | .ok (some (.requestBody body), w) =>
          if (List.lookup "application/json" body.content).isSome then
            .ok ("    builder = builder.json(&payload);\n", w)
          else if (List.lookup "multipart/form-data" body.content).isSome then
            .ok ("    builder = builder.form(&payload);\n", w)
          else if (List.lookup "application/octet-stream" body.content).isSome then
            .ok ("    builder = builder.body(payload);\n", w)
          else
            .ok ("", w ++ ["Unsupported type(s): <omitted>"])
      | .ok (some resolved, _) =>
          .error (.unexpectedResolvedType (resolvedDebug resolved) "RequestBody")
      | .ok (none, w) => .ok ("()", w)

/-- src/routes.rs `generate_function_body`: request construction with
path interpolation, the query-string loop over the operation's own
parameters, request-body attachment, then send/decode text chosen by
the response flags. -/
def generate_function_body (fuel : Nat) (endpoint method : String) (operation : Operation)
    (components : Components) (is_json is_none is_text : Bool) :
    Except GenError (String × List String) :=
  let args := placeholders endpoint
  let pathPart :=
    if args.isEmpty then "        \"" ++ endpoint ++ "\""
    else "        &format!(\"" ++ endpoint ++ "\", "
      ++ String.join (args.map (fun arg => arg ++ " = " ++ toSnake arg ++ ", ")) ++ ")"
  let head := "    let mut builder = client.request(\n        Method::" ++ method ++ ",\n"
    ++ pathPart ++ "\n    )?;\n"
  match query_section fuel operation.parameters components with
  | .error e => .error e
  | .ok (qs, w1) =>
      match body_attach fuel operation.request_body components with
      | .error e => .error e
      | .ok (ba, w2) =>
          let send := "    let response = builder.send()\n        .await?\n        .error_for_status()?"
          let tail :=
            if is_json then "\n        .json()\n        .await?;\n\n    Ok(response)"
            else if is_text then "\n        .text()\n        .await?;\n\n    Ok(response)"
            else if is_none then ";\n\n    Ok(())"
            else "\n        .bytes()\n        .await?;\n\n    Ok(response)"
          .ok (head ++ qs ++ ba ++ send ++ tail, w1 ++ w2)

/-- src/routes.rs `generate_route`: doc comment from the description,
mandatory `operationId` (absence is the fatal error naming method and
path), signature parameters (shared first, then own), payload from the
request body, return type from the 200 response, then the function
body. -/
def generate_route (fuel : Nat) (endpoint method : String) (operation : Operation)
    (shared_parameters : List (RefOr Parameter)) (components : Components) :
    Except GenError (String × List String) :=
  let descr :=
    match operation.description with
    | some d => "/// " ++ d ++ "\n"
    | none => ""
  match operation.operation_id with
  | none => .error (.missingOperationId method endpoint)
  | some method_name =>
      match param_sig_section fuel (shared_parameters ++ operation.parameters) components with
      | .error e => .error e
      | .ok (ps, w1) =>
          match request_body_sig fuel operation.request_body components with
          | .error e => .error e
          | .ok (bs, w2) =>
              match response_section fuel
                  (List.lookup "200" operation.responses.responses) components with
              | .error e => .error e
              | .ok (rt, w3, is_json, is_none, is_text) =>
                  match generate_function_body fuel endpoint method operation components
                      is_json is_none is_text with
                  | .error e => .error e
                  | .ok (fb, w4) =>
                      .ok (descr ++ "pub async fn " ++ method_name
                        ++ "(\n    client: &ApiClient,\n" ++ ps ++ bs
                        ++ ") -> Result<" ++ rt ++ "> \x7b\n" ++ fb ++ "\n\x7d\n\n",
                        w1 ++ w2 ++ w3 ++ w4)

/-! Concrete fixtures used by the theorems below. -/

/-- A registry with no entries. -/
def emptyComponents : Components := ⟨[], [], [], []⟩

/-- An inline string schema (no format, no reference). -/
def stringSchema : SchemaObject := .mk none (some (.single .string)) none none none

/-- The required path parameter `id` of spec Scenario A. -/
def idParam : Parameter := ⟨"id", "path", true, .schema stringSchema⟩

/-- A schema that is purely a reference to `#/components/schemas/Item`. -/
def itemRefSchema : SchemaObject := .mk none none (some "#/components/schemas/Item") none none

/-- The operation of spec Scenario A: GET with `operationId = getItem`,
one required path parameter `id` (string), 200 JSON referencing `Item`. -/
def scenarioAOperation : Operation :=
  ⟨some "getItem", none, [.object idParam], none,
   ⟨[("200", .object ⟨[("application/json", ⟨some itemRefSchema⟩)]⟩)]⟩⟩

/-- The full route text generated for Scenario A. -/
def scenarioAText : String :=
  "pub async fn getItem(\n    client: &ApiClient,\n    id: String,\n) -> Result<models::Item> \x7b\n    let mut builder = client.request(\n        Method::GET,\n        &format!(\"/items/\x7bid\x7d\", id = id, )\n    )?;\n    let response = builder.send()\n        .await?\n        .error_for_status()?\n        .json()\n        .await?;\n\n    Ok(response)\n\x7d\n\n"

/-- Substring test (used to state what generated text does and does not
contain). -/
def strContains (hay needle : String) : Bool :=
  hay.data.tails.any (fun t => needle.data.isPrefixOf t)

/-- A required query parameter `q` of string type. -/
def queryParamQ : Parameter := ⟨"q", "query", true, .schema stringSchema⟩

/-- An operation with no parameters of its own. -/
def listOperation : Operation := ⟨some "listItems", none, [], none, ⟨[]⟩⟩

/-- The same operation carrying `q` in its own parameter list. -/
def listOwnOperation : Operation := ⟨some "listItems", none, [.object queryParamQ], none, ⟨[]⟩⟩

/-- Route text when `q` comes only from the PathItem's shared list: `q`
appears in the signature but no query pair is attached in the body. -/
def sharedListText : String :=
  "pub async fn listItems(\n    client: &ApiClient,\n    q: String,\n) -> Result<()> \x7b\n    let mut builder = client.request(\n        Method::GET,\n        \"/items\"\n    )?;\n    let response = builder.send()\n        .await?\n        .error_for_status()?;\n\n    Ok(())\n\x7d\n\n"

/-- Route text when `q` is an operation-own parameter: the query pair is
attached. -/
def ownListText : String :=
  "pub async fn listItems(\n    client: &ApiClient,\n    q: String,\n) -> Result<()> \x7b\n    let mut builder = client.request(\n        Method::GET,\n        \"/items\"\n    )?;\n        builder = builder.query(&[(\"q\", q)]);\n    let response = builder.send()\n        .await?\n        .error_for_status()?;\n\n    Ok(())\n\x7d\n\n"

/-- An array schema whose single item schema is a plain boolean. -/
def boolArraySchema : SchemaObject :=
  .mk none none none (some (.mk (some (.single (.bool true))))) none

/-- An array schema whose items are an ambiguous list of schemas. -/
def vecItemsSchema : SchemaObject :=
  .mk none none none (some (.mk (some (.vec [.bool true])))) none

/-- A JSON request body whose schema is an array of a boolean schema. -/
def boolArrayBody : Option (RefOr RequestBody) :=
  some (.object ⟨[("application/json", ⟨some boolArraySchema⟩)]⟩)

/-- A JSON request body whose schema has an ambiguous items list. -/
def vecItemsBody : Option (RefOr RequestBody) :=
  some (.object ⟨[("application/json", ⟨some vecItemsSchema⟩)]⟩)

/-- A 200 JSON response whose schema is an array of a boolean schema. -/
def boolArrayResponse : Option (RefOr Response) :=
  some (.object ⟨[("application/json", ⟨some boolArraySchema⟩)]⟩)

/-- A 200 JSON response whose schema has an ambiguous items list. -/
def vecItemsResponse : Option (RefOr Response) :=
  some (.object ⟨[("application/json", ⟨some vecItemsSchema⟩)]⟩)

/-- A schemas-registry entry that is itself a pointer: in okapi a schema
entry is a `SchemaObject`, so a pure `$ref` entry is an object whose
`reference` field is set. -/
def schemaA : SchemaObject := .mk none none (some "#/components/schemas/B") none none

/-- A registry whose schema `A` points at schema `B`. -/
def schemaChainComponents : Components :=
  ⟨[("A", schemaA), ("B", stringSchema)], [], [], []⟩

/-- A registry holding a pointer chain of depth 3 in each of the three
`RefOr`-valued categories (parameters, responses, request bodies). -/
def chainComponents (p : Parameter) (r : Response) (b : RequestBody) : Components :=
  ⟨[],
   [("P1", .ref ⟨"#/components/parameters/P2"⟩),
    ("P2", .ref ⟨"#/components/parameters/P3"⟩),
    ("P3", .object p)],
   [("R1", .ref ⟨"#/components/responses/R2"⟩),
    ("R2", .ref ⟨"#/components/responses/R3"⟩),
    ("R3", .object r)],
   [("B1", .ref ⟨"#/components/requestBody/B2"⟩),
    ("B2", .ref ⟨"#/components/requestBody/B3"⟩),
    ("B3", .object b)]⟩

/-- A registry with a single request-body entry named `Foo`. -/
def rbComponents (body : RequestBody) : Components :=
  ⟨[], [], [], [("Foo", .object body)]⟩

/-- An operation with no `operationId`. -/
def noIdOperation : Operation := ⟨none, none, [], none, ⟨[]⟩⟩

/-- A 200 response with no content entries. -/
def emptyContentResponse : Option (RefOr Response) := some (.object ⟨[]⟩)

/-- A 200 response with only `application/xml` content. -/
def xmlResponse : Option (RefOr Response) := some (.object ⟨[("application/xml", ⟨none⟩)]⟩)

/-- A 200 response with only `application/octet-stream` content. -/
def octetResponse : Option (RefOr Response) :=
  some (.object ⟨[("application/octet-stream", ⟨none⟩)]⟩)

/-- A 200 response with only `text/plain` content. -/
def textResponse : Option (RefOr Response) := some (.object ⟨[("text/plain", ⟨none⟩)]⟩)

/-- A 200 JSON response referencing `Item`. -/
def jsonRefResponse : Option (RefOr Response) :=
  some (.object ⟨[("application/json", ⟨some itemRefSchema⟩)]⟩)

/-- A 200 JSON response whose schema is an array of `Item` references. -/
def jsonArrayRefResponse : Option (RefOr Response) :=
  some (.object
    ⟨[("application/json",
       ⟨some (.mk none none none (some (.mk (some (.single (.object itemRefSchema))))) none)⟩)]⟩)

/-- A 200 JSON response with an inline string schema. -/
def jsonInlineResponse : Option (RefOr Response) :=
  some (.object ⟨[("application/json", ⟨some stringSchema⟩)]⟩)

/-- C1: when `instanceType` is the single value `array` and a reference is
simultaneously present (no format rule matching), the type mapper does
not produce a list of the referenced record type: it produces
`Vec<serde_json::Value>` — the single-instance-type branch takes
precedence over the reference. -/
theorem C1_counterexample :
    map_type none (some (.single .array)) (some "#/components/schemas/Item") =
      .ok "Vec<serde_json::Value>" ∧
    map_type none (some (.single .array)) (some "#/components/schemas/Item") ≠
      .ok "Vec<models::Item>" :=
  ⟨rfl, fun h => absurd (Except.ok.inj h) (by decide)⟩

/-- C1 (amended): a schema whose instanceType is the single value `array`
maps to `Vec<serde_json::Value>` regardless of any simultaneously
present reference, in both the type mapper and the model synthesizer's
field table; the reference rule applies only when no single instance
type is present. -/
theorem C1_array_instance_amended :
    ∀ (reference : Option String) (name : String),
      map_type none (some (.single .array)) reference = .ok "Vec<serde_json::Value>" ∧
      field_type name (.mk none (some (.single .array)) reference none none) =
        .ok "Vec<serde_json::Value>" :=
  fun _ _ => ⟨rfl, rfl⟩

/-- C2: in Scenario A the generated function takes `id` as an owned
`String`, not a borrowed string slice: the route synthesizer has no
borrowed-parameter usage context and no `&str` appears anywhere in the
generated text. -/
theorem C2_counterexample :
    generate_route 10 "/items/\x7bid\x7d" "GET" scenarioAOperation [] emptyComponents =
      .ok (scenarioAText, []) ∧
    strContains scenarioAText "    id: String,\n" = true ∧
    strContains scenarioAText "&str" = false :=
  ⟨rfl, rfl, rfl⟩

/-- C2 (amended): operation parameters are typed by the same owned
mapping as fields — a string-schema parameter is emitted as owned
`String` (wrapped in `Option` when not required); the mapper takes no
usage-context argument. -/
theorem C2_owned_string_parameter :
    (∀ (reference : Option String),
      map_type none (some (.single .string)) reference = .ok "String") ∧
    (∀ (c : Components) (fuel : Nat),
      param_sig_one fuel (.object idParam) c = .ok ("    id: String,\n", [])) ∧
    (∀ (c : Components) (fuel : Nat),
      param_sig_one fuel (.object ⟨"q", "query", false, .schema stringSchema⟩) c =
        .ok ("    q: Option<String>,\n", [])) :=
  ⟨fun _ => rfl, fun _ _ => rfl, fun _ _ => rfl⟩

/-- C3: an array-of-boolean schema in the 200-response path does not
abort generation: the code only logs "unsupported bool for array items"
and continues with an empty type text, refuting the claim that both the
request-body path and the response path fail fatally. -/
theorem C3_counterexample :
    response_section 10 boolArrayResponse emptyComponents =
      .ok ("", ["unsupported bool for array items"], true, false, false) :=
  rfl

/-- C3 (amended): a boolean item schema or an ambiguous items list is a
fatal "unsupported" error in the request-body path, but in the
200-response path the same shapes are only logged and generation
continues (writing no type text). -/
theorem C3_unsupported_amended :
    (∀ (c : Components) (fuel : Nat),
      request_body_sig fuel boolArrayBody c = .error .boolVecUnsupported) ∧
    (∀ (c : Components) (fuel : Nat),
      request_body_sig fuel vecItemsBody c = .error .vecItemsUnsupported) ∧
    renderError .boolVecUnsupported = "simple boolean Vec is unsupported" ∧
    renderError .vecItemsUnsupported = "Vec with Array as items is not supported" ∧
    (∀ (c : Components) (fuel : Nat),
      response_section fuel boolArrayResponse c =
        .ok ("", ["unsupported bool for array items"], true, false, false)) ∧
    (∀ (c : Components) (fuel : Nat),
      response_section fuel vecItemsResponse c =
        .ok ("", ["unsupported multiple items vec <omitted>"], true, false, false)) :=
  ⟨fun _ _ => rfl, fun _ _ => rfl, rfl, rfl, fun _ _ => rfl, fun _ _ => rfl⟩

/-- C4: transitive resolution fails for the schemas category: a schema
registry entry that is itself a pointer (a schema object whose
`reference` field is set) is returned as-is, so resolving a pointer to
it differs from resolving a direct pointer to the final entity. -/
theorem C4_counterexample :
    resolve_reference 10 "#/components/schemas/A" schemaChainComponents =
      .ok (some (.schema schemaA), []) ∧
    resolve_reference 10 "#/components/schemas/B" schemaChainComponents =
      .ok (some (.schema stringSchema), []) ∧
    resolve_reference 10 "#/components/schemas/A" schemaChainComponents ≠
      resolve_reference 10 "#/components/schemas/B" schemaChainComponents := by
  refine ⟨rfl, rfl, ?_⟩
  intro h
  simp [resolve_reference, splitSlash, splitCharsOn, schemaChainComponents, schemaA,
    stringSchema, List.lookup] at h

/-- C4 (amended): for the three `RefOr`-valued registry categories
(parameters, responses, request bodies) a pointer chain of depth up to 3
resolves to the same concrete entity as a direct pointer to it; for the
schemas category resolution stops at the first registry entry without
following the entry's own reference field. -/
theorem C4_transitive_resolution_amended :
    ∀ (p : Parameter) (r : Response) (b : RequestBody),
      (resolve_reference 10 "#/components/parameters/P1" (chainComponents p r b) =
          .ok (some (.parameter p), []) ∧
        resolve_reference 10 "#/components/parameters/P1" (chainComponents p r b) =
          resolve_reference 10 "#/components/parameters/P3" (chainComponents p r b) ∧
        resolve_reference 10 "#/components/parameters/P2" (chainComponents p r b) =
          resolve_reference 10 "#/components/parameters/P3" (chainComponents p r b)) ∧
      (resolve_reference 10 "#/components/responses/R1" (chainComponents p r b) =
          .ok (some (.responses r), []) ∧
        resolve_reference 10 "#/components/responses/R1" (chainComponents p r b) =
          resolve_reference 10 "#/components/responses/R3" (chainComponents p r b)) ∧
      (resolve_reference 10 "#/components/requestBody/B1" (chainComponents p r b) =
          .ok (some (.requestBody b), []) ∧
        resolve_reference 10 "#/components/requestBody/B1" (chainComponents p r b) =
          resolve_reference 10 "#/components/requestBody/B3" (chainComponents p r b)) :=
  fun _ _ _ => ⟨⟨rfl, rfl, rfl⟩, ⟨rfl, rfl⟩, ⟨rfl, rfl⟩⟩

/-- C5: the type-mapping table — each format rule fires for any
instance type and reference, and with no format the single instance
types map as documented (including number to a 64-bit integer). -/
theorem C5_type_mapping_table :
    (∀ (it : Option (SingleOrVec InstanceType)) (ref : Option String),
      map_type (some "base64uuid") it ref = .ok "base64uuid::Base64Uuid") ∧
    (∀ it ref, map_type (some "int32") it ref = .ok "i32") ∧
    (∀ it ref, map_type (some "int64") it ref = .ok "i64") ∧
    (∀ it ref, map_type (some "float") it ref = .ok "f32") ∧
    (∀ it ref, map_type (some "double") it ref = .ok "f64") ∧
    (∀ it ref, map_type (some "byte") it ref = .ok "Vec<u8>") ∧
    (∀ it ref, map_type (some "binary") it ref = .ok "Vec<u8>") ∧
    (∀ it ref, map_type (some "date") it ref = .ok "time::OffsetDateTime") ∧
    (∀ it ref, map_type (some "date-time") it ref = .ok "time::OffsetDateTime") ∧
    (∀ it ref, map_type (some "password") it ref = .ok "SecureString") ∧
    (∀ (ref : Option String), map_type none (some (.single .null)) ref = .ok "()") ∧
    (∀ ref, map_type none (some (.single .boolean)) ref = .ok "bool") ∧
    (∀ ref, map_type none (some (.single .object)) ref =
      .ok "std::collections::HashMap<String, String>") ∧
    (∀ ref, map_type none (some (.single .number)) ref = .ok "i64") ∧
    (∀ ref, map_type none (some (.single .string)) ref = .ok "String") ∧
    (∀ ref, map_type none (some (.single .integer)) ref = .ok "i32") :=
  ⟨fun _ _ => rfl, fun _ _ => rfl, fun _ _ => rfl, fun _ _ => rfl, fun _ _ => rfl,
   fun _ _ => rfl, fun _ _ => rfl, fun _ _ => rfl, fun _ _ => rfl, fun _ _ => rfl,
   fun _ => rfl, fun _ => rfl, fun _ => rfl, fun _ => rfl, fun _ => rfl, fun _ => rfl⟩

/-- C7: the generated return type follows the 200-response rules — no
200 entry or empty content yields unit, JSON yields the derived type
(reference, array-of-reference or inline primitive), text/plain yields
String, and anything else falls back to `bytes::Bytes` with a warning
except octet-stream, which is silent. -/
theorem C7_return_type :
    ∀ (c : Components) (fuel : Nat),
      response_section fuel none c = .ok ("()", [], false, true, false) ∧
      response_section fuel emptyContentResponse c = .ok ("()", [], false, true, false) ∧
      response_section fuel jsonRefResponse c = .ok ("models::Item", [], true, false, false) ∧
      response_section fuel jsonArrayRefResponse c =
        .ok ("Vec<models::Item>", [], true, false, false) ∧
      response_section fuel jsonInlineResponse c = .ok ("String", [], true, false, false) ∧
      response_section fuel textResponse c = .ok ("String", [], false, false, true) ∧
      response_section fuel xmlResponse c =
        .ok ("bytes::Bytes",
          ["warn: unknown response mime type(s), falling back to `bytes::Bytes`: [\"application/xml\"]"],
          false, false, false) ∧
      response_section fuel octetResponse c = .ok ("bytes::Bytes", [], false, false, false) :=
  fun _ _ => ⟨rfl, rfl, rfl, rfl, rfl, rfl, rfl, rfl⟩

/-- C8: a query-location parameter supplied only through the PathItem's
shared parameter list appears in the function signature but is never
attached as a query pair — the body's query loop iterates only the
operation's own parameters, refuting the claim that shared query
parameters are attached. -/
theorem C8_counterexample :
    generate_route 10 "/items" "GET" listOperation [.object queryParamQ] emptyComponents =
      .ok (sharedListText, []) ∧
    strContains sharedListText "    q: String,\n" = true ∧
    strContains sharedListText "builder.query" = false :=
  ⟨rfl, rfl, rfl⟩

/-- C8 (amended): only the operation's own query-location parameters are
attached as query pairs (path parameters are skipped, unknown locations
are logged); attachment is guarded by a presence check when optional,
timestamps are formatted with Rfc3339 and maps serialized via
serde_json; a parameter present only in the shared list is attached
nowhere even though it is in the signature. -/
theorem C8_query_parameters_amended :
    (∀ (c : Components) (fuel : Nat),
      query_param_one fuel (.object queryParamQ) c =
        .ok ("        builder = builder.query(&[(\"q\", q)]);\n", [])) ∧
    (∀ (c : Components) (fuel : Nat),
      query_param_one fuel (.object ⟨"q", "query", false, .schema stringSchema⟩) c =
        .ok ("    if let Some(q) = q \x7b\n        builder = builder.query(&[(\"q\", q)]);\n    \x7d\n",
          [])) ∧
    (∀ (c : Components) (fuel : Nat),
      query_param_one fuel (.object ⟨"at", "query", true,
          .schema (.mk (some "date-time") none none none none)⟩) c =
        .ok ("        builder = builder.query(&[(\"at\", at.format(&Rfc3339)?)]);\n", [])) ∧
    (∀ (c : Components) (fuel : Nat),
      query_param_one fuel (.object ⟨"m", "query", true,
          .schema (.mk none (some (.single .object)) none none none)⟩) c =
        .ok ("        builder = builder.query(&[(\"m\", serde_json::to_string(&m)?)]);\n", [])) ∧
    (∀ (c : Components) (fuel : Nat),
      query_param_one fuel (.object idParam) c = .ok ("", [])) ∧
    (∀ (c : Components) (fuel : Nat),
      query_param_one fuel (.object ⟨"h", "header", true, .schema stringSchema⟩) c =
        .ok ("", ["unknown `in`: header"])) ∧
    generate_route 10 "/items" "GET" listOwnOperation [] emptyComponents =
      .ok (ownListText, []) ∧
    strContains ownListText "        builder = builder.query(&[(\"q\", q)]);\n" = true :=
  ⟨fun _ _ => rfl, fun _ _ => rfl, fun _ _ => rfl, fun _ _ => rfl, fun _ _ => rfl,
   fun _ _ => rfl, rfl, rfl⟩

/-! Splitting lemmas for the resolver's pointer parsing. -/

theorem string_data_append (a b : String) : (a ++ b).data = a.data ++ b.data := by
  cases a
  cases b
  rfl

theorem string_mk_data (s : String) : String.mk s.data = s := by
  cases s
  rfl

theorem string_append_assoc (x y z : String) : x ++ y ++ z = x ++ (y ++ z) := by
  cases x
  cases y
  cases z
  exact congrArg String.mk (List.append_assoc _ _ _)

theorem splitCharsOn_append_sep (p : Char → Bool) (l₁ l₂ acc : List Char)
    (h : ∀ x ∈ l₁, p x = false) (c : Char) (hc : p c = true) :
    splitCharsOn p (l₁ ++ c :: l₂) acc = (acc.reverse ++ l₁) :: splitCharsOn p l₂ [] := by
  induction l₁ generalizing acc with
  | nil => simp [splitCharsOn, hc]
  | cons x xs ih =>
      have hx : p x = false := h x (by simp)
      simp only [List.cons_append, splitCharsOn, hx, Bool.false_eq_true, if_false,
        List.append_eq]
      rw [ih (x :: acc) (fun y hy => h y (List.mem_cons_of_mem _ hy))]
      simp

theorem splitCharsOn_ne_nil (p : Char → Bool) (l acc : List Char) :
    ∃ hd tl, splitCharsOn p l acc = hd :: tl := by
  induction l generalizing acc with
  | nil => exact ⟨acc.reverse, [], rfl⟩
  | cons c cs ih =>
      by_cases hc : p c = true
      · exact ⟨acc.reverse, splitCharsOn p cs [], by simp [splitCharsOn, hc]⟩
      · obtain ⟨hd, tl, htl⟩ := ih (c :: acc)
        exact ⟨hd, tl, by simp [splitCharsOn, hc, htl]⟩

theorem splitCharsOn_two (p : Char → Bool) (l acc : List Char)
    (h : ∃ x ∈ l, p x = true) :
    ∃ t1 t2 ts, splitCharsOn p l acc = t1 :: t2 :: ts := by
  induction l generalizing acc with
  | nil => simp at h
  | cons c cs ih =>
      by_cases hc : p c = true
      · obtain ⟨hd, tl, htl⟩ := splitCharsOn_ne_nil p cs []
        exact ⟨acc.reverse, hd, tl, by simp [splitCharsOn, hc, htl]⟩
      · obtain ⟨x, hx, hpx⟩ := h
        rcases List.mem_cons.mp hx with rfl | hx
        · exact absurd hpx hc
        · obtain ⟨t1, t2, ts, hts⟩ := ih (c :: acc) ⟨x, hx, hpx⟩
          exact ⟨t1, t2, ts, by simp [splitCharsOn, hc, hts]⟩

theorem splitSlash_sep_append (a t : String)
    (ha : ∀ x ∈ a.data, (x == '/') = false) :
    splitSlash (a ++ "/" ++ t) = a :: splitSlash t := by
  cases a with
  | mk ad =>
  cases t with
  | mk td =>
  have hdata : ((String.mk ad) ++ "/" ++ (String.mk td)).data = ad ++ '/' :: td := by
    simp [string_data_append]
  unfold splitSlash
  rw [hdata, splitCharsOn_append_sep _ _ _ _ ha _ (by decide)]
  simp

theorem splitSlash_two (s : String) (h : ∃ x ∈ s.data, (x == '/') = true) :
    ∃ t1 t2 ts, splitSlash s = t1 :: t2 :: ts := by
  obtain ⟨t1, t2, ts, hts⟩ := splitCharsOn_two (fun c => c == '/') s.data [] h
  exact ⟨String.mk t1, String.mk t2, ts.map String.mk, by simp [splitSlash, hts]⟩

/-- C10: the resolver recognizes only the singular category token
`requestBody`: a pointer whose category segment is the standard plural
`requestBodies` takes the unrecognized-category branch and yields no
match plus the log line, for any trailing name; the singular token does
hit the request-bodies registry; and since the resolver skips the first
two slash-separated segments without inspecting them, any two-segment
prefix in place of `#/components` resolves identically. -/
theorem C10_request_body_category :
    (∀ (name : String) (c : Components) (fuel : Nat),
      resolve_reference (fuel + 1) ("#/components/requestBodies/" ++ name) c =
        .ok (none, ["Unsupported component type requestBodies"])) ∧
    (∀ (body : RequestBody) (fuel : Nat),
      resolve_reference (fuel + 1) "#/components/requestBody/Foo" (rbComponents body) =
        .ok (some (.requestBody body), [])) ∧
    (∀ (a b rest : String) (c : Components) (fuel : Nat),
      (∀ x ∈ a.data, (x == '/') = false) →
      (∀ x ∈ b.data, (x == '/') = false) →
      (∃ x ∈ rest.data, (x == '/') = true) →
      resolve_reference fuel (a ++ "/" ++ b ++ "/" ++ rest) c =
        resolve_reference fuel ("#/components/" ++ rest) c) := by
  refine ⟨?_, ?_, ?_⟩
  · intro name c fuel
    have hsplit : splitSlash ("#/components/requestBodies/" ++ name) =
        "#" :: "components" :: "requestBodies" :: splitSlash name := by
      have hshape : "#/components/requestBodies/" ++ name =
          "#" ++ "/" ++ ("components" ++ "/" ++ ("requestBodies" ++ "/" ++ name)) := by
        cases name
        rfl
      rw [hshape, splitSlash_sep_append _ _ (by decide),
        splitSlash_sep_append _ _ (by decide), splitSlash_sep_append _ _ (by decide)]
    obtain ⟨hd, tl, htl⟩ := splitCharsOn_ne_nil (fun c => c == '/') name.data []
    have hname : splitSlash name = String.mk hd :: tl.map String.mk := by
      simp [splitSlash, htl]
    simp only [resolve_reference, hsplit, hname, List.drop_succ_cons, List.drop_zero]
    rw [if_neg (by decide), if_neg (by decide), if_neg (by decide), if_neg (by decide)]
    rfl
  · intro body fuel
    rfl
  · intro a b rest c fuel ha hb hrest
    cases fuel with
    | zero => rfl
    | succ n =>
        have hL : splitSlash (a ++ "/" ++ b ++ "/" ++ rest) = a :: b :: splitSlash rest := by
          rw [string_append_assoc (a ++ "/") b "/", string_append_assoc (a ++ "/") (b ++ "/") rest,
            splitSlash_sep_append _ _ ha, splitSlash_sep_append _ _ hb]
        have hR : splitSlash ("#/components/" ++ rest) = "#" :: "components" :: splitSlash rest := by
          have hshape : "#/components/" ++ rest = "#" ++ "/" ++ ("components" ++ "/" ++ rest) := by
            cases rest
            rfl
          rw [hshape, splitSlash_sep_append _ _ (by decide), splitSlash_sep_append _ _ (by decide)]
        obtain ⟨t1, t2, ts, hts⟩ := splitSlash_two rest hrest
        simp only [resolve_reference, hL, hR, hts, List.drop_succ_cons, List.drop_zero]

/-- C10 witness: a concrete prefix swap resolves identically. -/
theorem C10_request_body_category_witness :
    resolve_reference 7 ("x" ++ "/" ++ "y" ++ "/" ++ "schemas/Item") emptyComponents =
      resolve_reference 7 ("#/components/" ++ "schemas/Item") emptyComponents :=
  (C10_request_body_category).2.2 "x" "y" "schemas/Item" emptyComponents 7
    (by decide) (by decide) (by decide)

/-- C9: the emitted type expression is optional-wrapped exactly when the
property name is absent from its container's required set, and a
parameter's exactly when its required flag is false; required
properties and parameters are emitted bare. -/
theorem C9_optionality_wrapping :
    (∀ (name : String) (schema : SchemaObject) (required_list : List String) (out : String),
      generate_normal_field name schema required_list = .ok out →
      ∃ t, field_type name schema = .ok t ∧
        out = "    #[serde(rename = \"" ++ name ++ "\")]\n" ++ "    pub "
          ++ (if isKeyword (toSnake name) then toSnake name ++ "_" else toSnake name) ++ ": "
          ++ (if required_list.contains name then t else "Option<" ++ t ++ ">") ++ ",\n") ∧
    (∀ (p : Parameter) (c : Components) (fuel : Nat) (out : String) (w : List String)
        (schema : SchemaObject),
      p.value = .schema schema →
      param_sig_one fuel (.object p) c = .ok (out, w) →
      ∃ t, map_type schema.format schema.instance_type schema.reference = .ok t ∧
        out = "    " ++ toSnake p.name ++ ": " ++ (if p.required then "" else "Option<")
          ++ t ++ ((if p.required then "" else ">") ++ ",\n")) := by
  constructor
  · intro name schema required_list out h
    cases hft : field_type name schema with
    | error e =>
        simp only [generate_normal_field, hft] at h
        exact Except.noConfusion h
    | ok t =>
        simp only [generate_normal_field, hft, Except.ok.injEq] at h
        exact ⟨t, rfl, h.symm⟩
  · intro p c fuel out w schema hv h
    simp only [param_sig_one, resolve, hv] at h
    cases hmt : map_type schema.format schema.instance_type schema.reference with
    | error e =>
        simp only [hmt, withContext] at h
        exact Except.noConfusion h
    | ok t =>
        simp only [hmt, withContext, Except.ok.injEq, Prod.mk.injEq] at h
        exact ⟨t, rfl, h.1.symm⟩

/-- C9 witness: an optional property `tag` of string type and an
optional string parameter `q`, both at concrete inputs. -/
theorem C9_optionality_wrapping_witness :
    (∃ t, field_type "tag" stringSchema = .ok t ∧
      "    #[serde(rename = \"tag\")]\n    pub tag: Option<String>,\n" =
        "    #[serde(rename = \"" ++ "tag" ++ "\")]\n" ++ "    pub "
          ++ (if isKeyword (toSnake "tag") then toSnake "tag" ++ "_" else toSnake "tag") ++ ": "
          ++ (if ([] : List String).contains "tag" then t else "Option<" ++ t ++ ">")
          ++ ",\n") ∧
    (∃ t, map_type stringSchema.format stringSchema.instance_type stringSchema.reference =
        .ok t ∧
      "    q: Option<String>,\n" =
        "    " ++ toSnake (Parameter.mk "q" "query" false (.schema stringSchema)).name ++ ": "
          ++ (if (Parameter.mk "q" "query" false (.schema stringSchema)).required then ""
              else "Option<")
          ++ t
          ++ ((if (Parameter.mk "q" "query" false (.schema stringSchema)).required then ""
              else ">") ++ ",\n")) :=
  ⟨(C9_optionality_wrapping).1 "tag" stringSchema []
      "    #[serde(rename = \"tag\")]\n    pub tag: Option<String>,\n" rfl,
   (C9_optionality_wrapping).2 ⟨"q", "query", false, .schema stringSchema⟩ emptyComponents 3
      "    q: Option<String>,\n" [] stringSchema rfl rfl⟩

/-! Error-shape lemmas: no code path other than the operation-id check
of `generate_route` ever produces the missing-operation-id error. -/

theorem map_type_no_missing (f : Option String) (i : Option (SingleOrVec InstanceType))
    (r : Option String) (a b : String) :
    map_type f i r ≠ .error (.missingOperationId a b) := by
  intro h
  unfold map_type at h
  repeat' split at h
  all_goals simp_all

theorem withContext_no_missing (ctx : String) (x : Except GenError α) (a b : String) :
    withContext ctx x ≠ .error (.missingOperationId a b) := by
  intro h
  cases x <;> simp [withContext] at h

theorem resolve_reference_no_missing :
    ∀ (fuel : Nat) (r : String) (c : Components) (a b : String),
      resolve_reference fuel r c ≠ .error (.missingOperationId a b) := by
  intro fuel
  induction fuel with
  | zero =>
      intro r c a b h
      injection h with h'
      exact GenError.noConfusion h'
  | succ n ih =>
      intro r c a b h
      simp only [resolve_reference] at h
      repeat' split at h
      all_goals first
        | (injection h with h'; exact GenError.noConfusion h')
        | exact absurd h (by simp)
        | exact ih _ _ _ _ h

theorem resolve_no_missing (fuel : Nat) (input : ResolveTarget) (c : Components)
    (a b : String) : resolve fuel input c ≠ .error (.missingOperationId a b) := by
  intro h
  unfold resolve at h
  repeat' split at h
  all_goals first
    | exact absurd h (by simp)
    | exact resolve_reference_no_missing _ _ _ _ _ h

theorem param_sig_one_no_missing (fuel : Nat) (raw : RefOr Parameter) (c : Components)
    (a b : String) : param_sig_one fuel raw c ≠ .error (.missingOperationId a b) := by
  intro h
  unfold param_sig_one at h
  repeat' split at h
  all_goals first
    | (injection h with h'; first
        | exact GenError.noConfusion h'
        | (subst h'; first
            | exact resolve_no_missing _ _ _ _ _ (by assumption)
            | exact withContext_no_missing _ _ _ _ (by assumption)))
    | exact absurd h (by simp)

theorem param_sig_section_no_missing (fuel : Nat) (params : List (RefOr Parameter))
    (c : Components) (a b : String) :
    param_sig_section fuel params c ≠ .error (.missingOperationId a b) := by
  induction params with
  | nil =>
      intro h
      simp [param_sig_section] at h
  | cons p rest ih =>
      intro h
      unfold param_sig_section at h
      repeat' split at h
      all_goals first
        | (injection h with h'; first
            | exact GenError.noConfusion h'
            | (subst h'; first
                | exact param_sig_one_no_missing _ _ _ _ _ (by assumption)
                | exact ih (by assumption)))
        | exact absurd h (by simp)

theorem request_body_sig_no_missing (fuel : Nat) (rb : Option (RefOr RequestBody))
    (c : Components) (a b : String) :
    request_body_sig fuel rb c ≠ .error (.missingOperationId a b) := by
  intro h
  unfold request_body_sig at h
  repeat' split at h
  all_goals first
    | (injection h with h'; first
        | exact GenError.noConfusion h'
        | (subst h'; first
            | exact resolve_no_missing _ _ _ _ _ (by assumption)
            | exact map_type_no_missing _ _ _ _ _ (by assumption)))
    | exact absurd h (by simp)

theorem response_section_no_missing (fuel : Nat) (resp : Option (RefOr Response))
    (c : Components) (a b : String) :
    response_section fuel resp c ≠ .error (.missingOperationId a b) := by
  intro h
  unfold response_section at h
  repeat' split at h
  all_goals first
    | (injection h with h'; first
        | exact GenError.noConfusion h'
        | (subst h'; first
            | exact resolve_no_missing _ _ _ _ _ (by assumption)
            | exact map_type_no_missing _ _ _ _ _ (by assumption)))
    | exact absurd h (by simp)

theorem query_param_one_no_missing (fuel : Nat) (raw : RefOr Parameter) (c : Components)
    (a b : String) : query_param_one fuel raw c ≠ .error (.missingOperationId a b) := by
  intro h
  unfold query_param_one at h
  repeat' split at h
  all_goals first
    | (injection h with h'; first
        | exact GenError.noConfusion h'
        | (subst h'; first
            | exact resolve_no_missing _ _ _ _ _ (by assumption)
            | exact withContext_no_missing _ _ _ _ (by assumption)))
    | exact absurd h (by simp)

theorem query_section_no_missing (fuel : Nat) (params : List (RefOr Parameter))
    (c : Components) (a b : String) :
    query_section fuel params c ≠ .error (.missingOperationId a b) := by
  induction params with
  | nil =>
      intro h
      simp [query_section] at h
  | cons p rest ih =>
      intro h
      unfold query_section at h
      repeat' split at h
      all_goals first
        | (injection h with h'; first
            | exact GenError.noConfusion h'
            | (subst h'; first
                | exact query_param_one_no_missing _ _ _ _ _ (by assumption)
                | exact ih (by assumption)))
        | exact absurd h (by simp)

theorem body_attach_no_missing (fuel : Nat) (rb : Option (RefOr RequestBody))
    (c : Components) (a b : String) :
    body_attach fuel rb c ≠ .error (.missingOperationId a b) := by
  intro h
  unfold body_attach at h
  repeat' split at h
  all_goals first
    | (injection h with h'; first
        | exact GenError.noConfusion h'
        | (subst h'; exact resolve_no_missing _ _ _ _ _ (by assumption)))
    | exact absurd h (by simp)

theorem generate_function_body_no_missing (fuel : Nat) (endpoint method : String)
    (operation : Operation) (c : Components) (is_json is_none is_text : Bool)
    (a b : String) :
    generate_function_body fuel endpoint method operation c is_json is_none is_text ≠
      .error (.missingOperationId a b) := by
  intro h
  unfold generate_function_body at h
  repeat' split at h
  all_goals first
    | (injection h with h'; first
        | exact GenError.noConfusion h'
        | (subst h'; first
            | exact query_section_no_missing _ _ _ _ _ (by assumption)
            | exact body_attach_no_missing _ _ _ _ _ (by assumption)))
    | exact absurd h (by simp)

/-- C6: an operation without `operationId` makes the route synthesizer
fail with the fatal error whose message names the offending method and
path; an operation that has one can never produce that error — every
other failure of `generate_route` is a different error value. -/
theorem C6_missing_operation_id :
    ∀ (fuel : Nat) (endpoint method : String) (operation : Operation)
      (shared : List (RefOr Parameter)) (c : Components),
      (operation.operation_id = none →
        generate_route fuel endpoint method operation shared c =
          .error (.missingOperationId method endpoint)) ∧
      (renderError (.missingOperationId method endpoint) =
        "\"" ++ method ++ " " ++ endpoint ++ "\" does not have operation_id") ∧
      (∀ id, operation.operation_id = some id →
        ∀ a b, generate_route fuel endpoint method operation shared c ≠
          .error (.missingOperationId a b)) := by
  intro fuel endpoint method operation shared c
  refine ⟨?_, rfl, ?_⟩
  · intro h1
    simp [generate_route, h1]
  · intro id hid a b h
    simp only [generate_route, hid] at h
    repeat' split at h
    all_goals first
      | (injection h with h'; first
          | exact GenError.noConfusion h'
          | (subst h'; first
              | exact param_sig_section_no_missing _ _ _ _ _ (by assumption)
              | exact request_body_sig_no_missing _ _ _ _ _ (by assumption)
              | exact response_section_no_missing _ _ _ _ _ (by assumption)
              | exact generate_function_body_no_missing _ _ _ _ _ _ _ _ _ _ (by assumption)))
      | exact absurd h (by simp)

/-- C6 witness: a concrete operation without an id aborts with the
method-and-path error; the same shape with an id never does. -/
theorem C6_missing_operation_id_witness :
    generate_route 10 "/items" "GET" noIdOperation [] emptyComponents =
      .error (.missingOperationId "GET" "/items") ∧
    generate_route 10 "/items" "GET" listOperation [] emptyComponents ≠
      .error (.missingOperationId "a" "b") :=
  ⟨(C6_missing_operation_id 10 "/items" "GET" noIdOperation [] emptyComponents).1 rfl,
   (C6_missing_operation_id 10 "/items" "GET" listOperation [] emptyComponents).2.2
     "listItems" rfl "a" "b"⟩

end FpGen
